import Mathlib

set_option maxRecDepth 20000

/-!
Verification of the Authorization-Code-Flow server of this repository
(file AuthorizationCodeCredential/test.ts): a shallow embedding of its
data model, its Express route handlers (/login, /logout, /azureResponse,
/me) and its authorize-URL / redirect / query-string pipeline, together
with theorems settling the specification claims about them.

Conventions of the embedding:
- JavaScript truthiness of an optional string (undefined or empty string
  are falsy) is the function truthy.
- Indexing a record with a possibly-undefined key coerces undefined to
  the literal string "undefined" (JavaScript ToPropertyKey), function
  jsString.
- A handler that throws (an unhandled TypeError on a property access of
  undefined, or an explicit throw) yields HOut.thrown instead of a
  response.
- External effects (the one getToken call of the callback handler, the
  one upstream GET of the resource proxy) are passed in as oracle
  arguments and reported in the handler output so theorems can state
  that they were or were not attempted.
-/

/-- Turns a string literal into its character list. -/
def str (s : String) : List Char := s.data

/-- An access token as stored by the credential (token string plus expiry
timestamp), mirroring the AccessToken shape of the source. -/
structure AccessToken where
  token : String
  expiresOnTimestamp : Int
deriving DecidableEq

/-- The credential constructed by the callback handler, mirroring
new AuthorizationCodeCredential(tenantId, clientId, authorizationCode,
redirectUri) of the source. -/
structure Credential where
  tenantId : String
  clientId : String
  authorizationCode : String
  redirectUri : String
deriving DecidableEq

/-- The azure field of a user record: optional access token, optional
credential handle, optional stored error message. -/
structure AzureState where
  accessToken : Option AccessToken
  credential : Option Credential
  error : Option String
deriving DecidableEq

/-- A database entry: the loggedIn flag and the azure state. -/
structure UserState where
  loggedIn : Bool
  azure : AzureState
deriving DecidableEq

/-- The in-memory database keyed by username. -/
abbrev Db := String → Option UserState

/-- The session of the requesting client: its optional username. -/
abbrev Session := Option String

/-- Pointwise database update at one key. -/
def dbSet (db : Db) (k : String) (v : Option UserState) : Db :=
  fun u => if u = k then v else db u

/-- The empty database. -/
def emptyDb : Db := fun _ => none

/-- A database holding exactly one entry. -/
def dbOf (k : String) (e : UserState) : Db :=
  fun u => if u = k then some e else none

/-- The azure state of a fresh database entry (the empty object of the
source). -/
def emptyAzure : AzureState := ⟨none, none, none⟩

/-- JavaScript truthiness of an optional string: undefined and the empty
string are falsy. -/
def truthy : Option String → Bool
  | none => false
  | some s => s != ""

/-- JavaScript string coercion of an optional string: undefined becomes
the literal string "undefined" (as in template interpolation and in
ToPropertyKey for record indexing). -/
def jsString : Option String → String
  | none => "undefined"
  | some s => s

/-- An HTTP response as produced by the handlers: status, optional body,
optional redirect location. -/
structure HttpResponse where
  status : Nat
  body : Option String
  location : Option String
deriving DecidableEq

/-- res.sendStatus of Express: only the status code, no custom body. -/
def sendStatus (n : Nat) : HttpResponse := ⟨n, none, none⟩

/-- res.redirect of Express: a 302 with a Location. -/
def redirectTo (l : String) : HttpResponse := ⟨302, none, some l⟩

/-- A JavaScript exception escaping a handler. -/
inductive JsError where
  /-- TypeError from reading the named field of undefined. -/
  | typeError : String → JsError
  /-- An explicit throw new Error with the given message. -/
  | thrownError : String → JsError
deriving DecidableEq

/-- Outcome of a handler body: a normal value or a thrown exception. -/
inductive HOut (α : Type) where
  | ok : α → HOut α
  | thrown : JsError → HOut α
deriving DecidableEq

/-- Output of the /logout handler. -/
structure LogoutOut where
  result : HOut HttpResponse
  db : Db
  sess : Session

/-- The /logout handler of the source: reads session.username, writes
database[username].loggedIn = false (throwing a TypeError when that
entry is missing; an absent username indexes the key "undefined"),
deletes the session username and sends 200. -/
def logout (db : Db) (sess : Session) : LogoutOut :=
  match db (jsString sess) with
  | none => ⟨HOut.thrown (JsError.typeError ("loggedIn")), db, sess⟩
  | some e =>
    ⟨HOut.ok (sendStatus 200), dbSet db (jsString sess) (some ⟨false, e.azure⟩), none⟩

/-- Output of the /login handler (this handler never throws). -/
structure LoginOut where
  result : HttpResponse
  db : Db
  sess : Session

/-- The /login handler of the source: rejects when the session already
has a truthy username (writing a body and then status 500); otherwise
stores the query username on the session, creates the database entry if
missing, sets loggedIn = true and sends 200. -/
def login (db : Db) (sess : Session) (qUser : Option String) : LoginOut :=
  if truthy sess then
    ⟨⟨500, some ("User is already authenticated"), none⟩, db, sess⟩
  else
    let k := jsString qUser
    let db1 :=
      match db k with
      | none => dbSet db k (some ⟨true, emptyAzure⟩)
      | some _ => db
    let db2 :=
      match db1 k with
      | none => db1
      | some e => dbSet db1 k (some ⟨true, e.azure⟩)
    ⟨sendStatus 200, db2, qUser⟩

/-- Output of the /azureResponse handler: the result, the database after
the request, how many times credential.getToken was invoked, and the
credential constructed (if any). -/
structure CallbackOut where
  result : HOut HttpResponse
  db : Db
  getTokenCalls : Nat
  credentialMade : Option Credential

/-- The /azureResponse handler of the source. Arguments code, errParam,
errDesc and state are the query parameters; tok is the outcome of the
single credential.getToken call (the external exchange), consulted only
when that call is reached. Faithful to the source: a falsy code throws;
a falsy state yields 401; a state naming an unknown username throws a
TypeError reading loggedIn; a known user with loggedIn false yields 401;
otherwise the credential is built, getToken is attempted exactly once
inside try/catch, the whole azure object of the entry is replaced with
the outcome, and the handler redirects to the root. -/
def azureResponse (tenantId clientId redirectUri : String) (db : Db)
    (code errParam errDesc state : Option String)
    (tok : Except String AccessToken) : CallbackOut :=
  if truthy code = false then
    ⟨HOut.thrown (JsError.thrownError
        ("Authentication Error \"" ++ jsString errParam ++ "\":\n\n" ++ jsString errDesc)),
      db, 0, none⟩
  else if truthy state = false then
    ⟨HOut.ok (sendStatus 401), db, 0, none⟩
  else
    let u := jsString state
    match db u with
    | none => ⟨HOut.thrown (JsError.typeError ("loggedIn")), db, 0, none⟩
    | some e =>
      if e.loggedIn = false then
        ⟨HOut.ok (sendStatus 401), db, 0, none⟩
      else
        let cred : Credential := ⟨tenantId, clientId, jsString code, redirectUri⟩
        match tok with
        | Except.ok t =>
          ⟨HOut.ok (redirectTo ("/")),
            dbSet db u (some ⟨e.loggedIn, ⟨some t, some cred, none⟩⟩), 1, some cred⟩
        | Except.error m =>
          ⟨HOut.ok (redirectTo ("/")),
            dbSet db u (some ⟨e.loggedIn, ⟨none, some cred, some m⟩⟩), 1, some cred⟩

/-- Output of the /me handler: the result and the Authorization header of
the upstream GET when one was sent (none means no upstream call was
attempted). -/
structure MeOut where
  result : HOut HttpResponse
  upstreamCall : Option String

/-- The /me handler of the source. The upstream argument is the response
of the external resource API, consulted only when the guard passes.
Faithful to the source: a falsy session username yields 401; a truthy
username with no database entry throws a TypeError reading loggedIn;
loggedIn false or a missing stored access token yields 401; otherwise one
GET with header Bearer plus the stored token is sent and the upstream
status is relayed through res.sendStatus (discarding the upstream body). -/
def me (db : Db) (sess : Session) (upstream : HttpResponse) : MeOut :=
  if truthy sess = false then
    ⟨HOut.ok (sendStatus 401), none⟩
  else
    match db (jsString sess) with
    | none => ⟨HOut.thrown (JsError.typeError ("loggedIn")), none⟩
    | some e =>
      if e.loggedIn = false then
        ⟨HOut.ok (sendStatus 401), none⟩
      else
        match e.azure.accessToken with
        | none => ⟨HOut.ok (sendStatus 401), none⟩
        | some t =>
          ⟨HOut.ok (sendStatus upstream.status), some ("Bearer " ++ t.token)⟩

/-- Is a character kept verbatim by the URLSearchParams form encoding
(ASCII alphanumerics and the four characters asterisk, hyphen, dot,
underscore)? -/
def isUnreservedChar (c : Char) : Bool :=
  c.isAlphanum || c == '*' || c == '-' || c == '.' || c == '_'

/-- The uppercase hexadecimal digit of a nibble. -/
def hexDigitChar (n : Nat) : Char :=
  if n < 10 then Char.ofNat (48 + n) else Char.ofNat (55 + n)

/-- Percent-encoding of one character (two hex digits of its code). -/
def percentEncodeChar (c : Char) : List Char :=
  ['%', hexDigitChar (c.toNat / 16 % 16), hexDigitChar (c.toNat % 16)]

/-- URLSearchParams.toString encoding of one component: unreserved
characters verbatim, space as plus, anything else percent-encoded. -/
def formEncode : List Char → List Char
  | [] => []
  | c :: cs =>
    (if isUnreservedChar c then [c]
     else if c = ' ' then ['+']
     else percentEncodeChar c) ++ formEncode cs

/-- The numeric value of a hexadecimal digit character. -/
def hexVal (c : Char) : Option Nat :=
  if 48 ≤ c.toNat ∧ c.toNat ≤ 57 then some (c.toNat - 48)
  else if 65 ≤ c.toNat ∧ c.toNat ≤ 70 then some (c.toNat - 55)
  else if 97 ≤ c.toNat ∧ c.toNat ≤ 102 then some (c.toNat - 87)
  else none

/-- Replacing every plus with a space (the first step of the query-string
component decoder of the Express query parser). -/
def plusToSpace (l : List Char) : List Char :=
  l.map (fun c => if c = '+' then ' ' else c)

/-- Strict percent-decoding (decodeURIComponent): a percent must be
followed by two hex digits, otherwise the whole decode fails. -/
def percentDecode : List Char → Option (List Char)
  | [] => some []
  | c :: cs =>
    if c = '%' then
      match cs with
      | a :: b :: rest =>
        match hexVal a, hexVal b with
        | some x, some y => (percentDecode rest).map (fun r => Char.ofNat (16 * x + y) :: r)
        | some _, none => none
        | none, _ => none
      | _ => none
    else (percentDecode cs).map (fun r => c :: r)

/-- Decoding of one query-string component as the Express query parser
(qs) does: plus becomes space, then decodeURIComponent; when the latter
fails on a malformed escape the plus-replaced text is kept verbatim. -/
def formDecode (l : List Char) : List Char :=
  match percentDecode (plusToSpace l) with
  | some r => r
  | none => plusToSpace l

/-- Splitting a character list on a separator (JavaScript String.split). -/
def splitOnChar (sep : Char) : List Char → List (List Char)
  | [] => [[]]
  | c :: cs =>
    match splitOnChar sep cs with
    | [] => [[]]
    | r :: rs => if c = sep then [] :: r :: rs else (c :: r) :: rs

/-- Everything after the first occurrence of a separator (how Express
obtains the query part of a request URL). -/
def afterFirstChar (sep : Char) : List Char → List Char
  | [] => []
  | c :: cs => if c = sep then cs else afterFirstChar sep cs

/-- Joining pieces with ampersands (URLSearchParams serialization). -/
def joinAmp : List (List Char) → List Char
  | [] => []
  | [x] => x
  | x :: xs => x ++ '&' :: joinAmp xs

/-- Splitting one query piece at its first equals sign. -/
def splitFirstEq : List Char → List Char × List Char
  | [] => ([], [])
  | c :: cs =>
    if c = '=' then ([], cs)
    else ((splitFirstEq cs).1.cons c, (splitFirstEq cs).2)

/-- The Express query parser: split on ampersands, split each piece at
its first equals sign, decode both sides. -/
def parseQuery (q : List Char) : List (List Char × List Char) :=
  (splitOnChar '&' q).map
    (fun p => (formDecode (splitFirstEq p).1, formDecode (splitFirstEq p).2))

/-- Reading one query parameter (first occurrence of the key). -/
def getQueryParam (q k : List Char) : Option (List Char) :=
  ((parseQuery q).find? (fun kv => kv.1 == k)).map (fun kv => kv.2)

/-- One encoded key=value piece of URLSearchParams.toString. -/
def encodePair (kv : List Char × List Char) : List Char :=
  formEncode kv.1 ++ '=' :: formEncode kv.2

/-- URLSearchParams.toString over an ordered list of pairs. -/
def urlSearchParams (pairs : List (List Char × List Char)) : List Char :=
  joinAmp (pairs.map encodePair)

/-- The scope constant of the source. -/
def scopeChars : List Char := str ("https://graph.microsoft.com/.default")

/-- The redirect URI constant of the source (homeUri plus /azureResponse,
yielding a double slash), parametrized by the port. -/
def redirectUriChars (port : List Char) : List Char :=
  str ("http://localhost:") ++ port ++ str ("//azureResponse")

/-- getAuthorizeUrl of the source: the authorize endpoint of the tenant
followed by the URLSearchParams encoding of client_id, response_type,
redirect_uri, scope and state, in insertion order. -/
def getAuthorizeUrl (port tenantId clientId scopes state : List Char) : List Char :=
  str ("https://login.microsoftonline.com/") ++ tenantId ++
    str ("/oauth2/v2.0/authorize?") ++
    urlSearchParams
      [(str ("client_id"), clientId),
       (str ("response_type"), str ("code")),
       (str ("redirect_uri"), redirectUriChars port),
       (str ("scope"), scopes),
       (str ("state"), state)]

/-- The query string that /azureLogin forwards to /azureFakeRedirect:
piece 1 of the authorize URL split on question marks. -/
def azureLoginRedirectQuery (port tenantId clientId state : List Char) : List Char :=
  (splitOnChar '?' (getAuthorizeUrl port tenantId clientId scopeChars state)).getD 1 []

/-- JavaScript template interpolation of an optional string. -/
def jsChars : Option (List Char) → List Char
  | none => str ("undefined")
  | some s => s

/-- The Location that /azureFakeRedirect produces: the literal callback
path with the canned code, and the received state parameter re-inserted
verbatim (decoded, without re-encoding). -/
def azureFakeRedirectLocation (query : List Char) : List Char :=
  str ("/azureResponse?code=XXXXXXXXX&state=") ++
    jsChars (getQueryParam query (str ("state")))

/-- The state query parameter as /azureResponse receives it, after the
whole redirect chain that /azureLogin starts for a given state value. -/
def stateReceivedAtCallback (port tenantId clientId s : List Char) : Option (List Char) :=
  getQueryParam
    (afterFirstChar '?'
      (azureFakeRedirectLocation (azureLoginRedirectQuery port tenantId clientId s)))
    (str ("state"))

theorem splitOnChar_ne_nil (sep : Char) (l : List Char) : splitOnChar sep l ≠ [] := by
  induction l with
  | nil => simp [splitOnChar]
  | cons c cs ih =>
    simp only [splitOnChar]
    cases h : splitOnChar sep cs with
    | nil => simp
    | cons r rs => by_cases hc : c = sep <;> simp [hc]

theorem splitOnChar_no_sep (sep : Char) (l : List Char) (h : ∀ c ∈ l, c ≠ sep) :
    splitOnChar sep l = [l] := by
  induction l with
  | nil => rfl
  | cons c cs ih =>
    have hc : c ≠ sep := h c (by simp)
    have ih' := ih (fun d hd => h d (by simp [hd]))
    simp [splitOnChar, ih', hc]

theorem splitOnChar_append_sep (sep : Char) (a b : List Char) (h : ∀ c ∈ a, c ≠ sep) :
    splitOnChar sep (a ++ sep :: b) = a :: splitOnChar sep b := by
  induction a with
  | nil =>
    simp only [List.nil_append, splitOnChar]
    cases hb : splitOnChar sep b with
    | nil => exact absurd hb (splitOnChar_ne_nil sep b)
    | cons r rs => simp
  | cons c cs ih =>
    have hc : c ≠ sep := h c (by simp)
    have ih' := ih (fun d hd => h d (by simp [hd]))
    simp only [List.cons_append, splitOnChar, List.append_eq]
    rw [ih']
    simp [hc]

theorem afterFirstChar_append_sep (sep : Char) (a b : List Char) (h : ∀ c ∈ a, c ≠ sep) :
    afterFirstChar sep (a ++ sep :: b) = b := by
  induction a with
  | nil => simp [afterFirstChar]
  | cons c cs ih =>
    have hc : c ≠ sep := h c (by simp)
    simp [afterFirstChar, hc, ih (fun d hd => h d (by simp [hd]))]

theorem splitFirstEq_append (a b : List Char) (h : ∀ c ∈ a, c ≠ '=') :
    splitFirstEq (a ++ '=' :: b) = (a, b) := by
  induction a with
  | nil => simp [splitFirstEq]
  | cons c cs ih =>
    have hc : c ≠ '=' := h c (by simp)
    have ih' := ih (fun d hd => h d (by simp [hd]))
    simp [splitFirstEq, hc, ih']

theorem joinAmp_cons_cons (x y : List Char) (ys : List (List Char)) :
    joinAmp (x :: y :: ys) = x ++ '&' :: joinAmp (y :: ys) := rfl

theorem mem_joinAmp (l : List (List Char)) (d : Char) (hd : d ∈ joinAmp l) :
    (∃ x ∈ l, d ∈ x) ∨ d = '&' := by
  induction l with
  | nil => simp [joinAmp] at hd
  | cons x xs ih =>
    cases xs with
    | nil =>
      simp only [joinAmp] at hd
      exact Or.inl ⟨x, by simp, hd⟩
    | cons y ys =>
      rw [joinAmp_cons_cons] at hd
      rcases List.mem_append.mp hd with h1 | h2
      · exact Or.inl ⟨x, by simp, h1⟩
      · rcases List.mem_cons.mp h2 with h3 | h4
        · exact Or.inr h3
        · rcases ih h4 with ⟨z, hz, hdz⟩ | h5
          · exact Or.inl ⟨z, List.mem_cons_of_mem x hz, hdz⟩
          · exact Or.inr h5

theorem splitOnChar_joinAmp (l : List (List Char)) (hne : l ≠ [])
    (h : ∀ x ∈ l, ∀ c ∈ x, c ≠ '&') : splitOnChar '&' (joinAmp l) = l := by
  induction l with
  | nil => exact absurd rfl hne
  | cons x xs ih =>
    cases xs with
    | nil =>
      simp only [joinAmp]
      exact splitOnChar_no_sep '&' x (h x (by simp))
    | cons y ys =>
      rw [joinAmp_cons_cons]
      rw [splitOnChar_append_sep '&' x _ (h x (by simp))]
      rw [ih (by simp) (fun z hz c hc => h z (List.mem_cons_of_mem x hz) c hc)]

theorem hexVal_hexDigitChar : ∀ n, n < 16 → hexVal (hexDigitChar n) = some n := by decide

theorem hexDigitChar_props : ∀ n, n < 16 →
    hexDigitChar n ≠ '&' ∧ hexDigitChar n ≠ '=' ∧ hexDigitChar n ≠ '?' ∧
      hexDigitChar n ≠ '+' ∧ hexDigitChar n ≠ '%' := by decide

theorem formEncode_chars (l : List Char) :
    ∀ d ∈ formEncode l, d ≠ '&' ∧ d ≠ '=' ∧ d ≠ '?' := by
  induction l with
  | nil => simp [formEncode]
  | cons c cs ih =>
    intro d hd
    simp only [formEncode] at hd
    rcases List.mem_append.mp hd with h1 | h2
    · by_cases hu : isUnreservedChar c
      · rw [if_pos hu] at h1
        simp only [List.mem_singleton] at h1
        subst h1
        refine ⟨?_, ?_, ?_⟩ <;> intro hq <;> rw [hq] at hu <;> exact absurd hu (by decide)
      · rw [if_neg hu] at h1
        by_cases hsp : c = ' '
        · rw [if_pos hsp] at h1
          simp only [List.mem_singleton] at h1
          subst h1
          exact (by decide)
        · rw [if_neg hsp] at h1
          have hlt1 : c.toNat / 16 % 16 < 16 := Nat.mod_lt _ (by decide)
          have hlt2 : c.toNat % 16 < 16 := Nat.mod_lt _ (by decide)
          simp only [percentEncodeChar, List.mem_cons, List.not_mem_nil, or_false] at h1
          rcases h1 with h | h | h
          · subst h; exact (by decide)
          · subst h
            have := hexDigitChar_props _ hlt1
            exact ⟨this.1, this.2.1, this.2.2.1⟩
          · subst h
            have := hexDigitChar_props _ hlt2
            exact ⟨this.1, this.2.1, this.2.2.1⟩
    · exact ih d h2

theorem encodePair_chars (kv : List Char × List Char) :
    ∀ d ∈ encodePair kv, d ≠ '&' ∧ d ≠ '?' := by
  intro d hd
  simp only [encodePair] at hd
  rcases List.mem_append.mp hd with h | h
  · have := formEncode_chars kv.1 d h
    exact ⟨this.1, this.2.2⟩
  · rcases List.mem_cons.mp h with h1 | h2
    · subst h1; exact (by decide)
    · have := formEncode_chars kv.2 d h2
      exact ⟨this.1, this.2.2⟩

theorem urlSearchParams_chars (pairs : List (List Char × List Char)) :
    ∀ d ∈ urlSearchParams pairs, d ≠ '?' := by
  intro d hd
  rcases mem_joinAmp _ d hd with ⟨x, hx, hdx⟩ | h
  · rcases List.mem_map.mp hx with ⟨kv, hkv, hkveq⟩
    subst hkveq
    exact (encodePair_chars kv d hdx).2
  · subst h; decide

theorem percentDecode_cons_ne (c : Char) (cs : List Char) (h : c ≠ '%') :
    percentDecode (c :: cs) = (percentDecode cs).map (fun r => c :: r) := by
  rw [percentDecode.eq_def]
  simp [h]

theorem percentDecode_no_pct (l : List Char) (h : ∀ c ∈ l, c ≠ '%') :
    percentDecode l = some l := by
  induction l with
  | nil => rfl
  | cons c cs ih =>
    rw [percentDecode_cons_ne c cs (h c (by simp))]
    rw [ih (fun d hd => h d (by simp [hd]))]
    rfl

theorem plusToSpace_id (l : List Char) (h : ∀ c ∈ l, c ≠ '+') : plusToSpace l = l := by
  induction l with
  | nil => rfl
  | cons c cs ih =>
    simp only [plusToSpace, List.map_cons]
    rw [if_neg (h c (by simp))]
    have := ih (fun d hd => h d (by simp [hd]))
    simp only [plusToSpace] at this
    rw [this]

theorem formDecode_id (l : List Char) (h : ∀ c ∈ l, c ≠ '+' ∧ c ≠ '%') :
    formDecode l = l := by
  unfold formDecode
  rw [plusToSpace_id l (fun c hc => (h c hc).1)]
  rw [percentDecode_no_pct l (fun c hc => (h c hc).2)]

theorem percentDecode_plusToSpace_formEncode (l : List Char)
    (h : ∀ c ∈ l, c.toNat < 128) :
    percentDecode (plusToSpace (formEncode l)) = some l := by
  induction l with
  | nil => rfl
  | cons c cs ih =>
    have hc : c.toNat < 128 := h c (by simp)
    have ih' := ih (fun d hd => h d (by simp [hd]))
    simp only [formEncode]
    by_cases hu : isUnreservedChar c
    · rw [if_pos hu]
      have hplus : c ≠ '+' := by
        intro hq; rw [hq] at hu; exact absurd hu (by decide)
      have hpct : c ≠ '%' := by
        intro hq; rw [hq] at hu; exact absurd hu (by decide)
      simp only [plusToSpace, List.map_append, List.map_cons, List.map_nil,
        List.cons_append, List.nil_append] at ih' ⊢
      rw [if_neg hplus, percentDecode_cons_ne c _ hpct, ih']
      rfl
    · rw [if_neg hu]
      by_cases hsp : c = ' '
      · rw [if_pos hsp]
        simp only [plusToSpace, List.map_append, List.map_cons, List.map_nil,
          List.cons_append, List.nil_append] at ih' ⊢
        rw [if_pos trivial, percentDecode_cons_ne ' ' _ (by decide), ih']
        rw [hsp]
        rfl
      · rw [if_neg hsp]
        have hlt1 : c.toNat / 16 % 16 < 16 := Nat.mod_lt _ (by decide)
        have hlt2 : c.toNat % 16 < 16 := Nat.mod_lt _ (by decide)
        have hd1 := hexDigitChar_props _ hlt1
        have hd2 := hexDigitChar_props _ hlt2
        simp only [percentEncodeChar, plusToSpace, List.map_append, List.map_cons,
          List.map_nil, List.cons_append, List.nil_append] at ih' ⊢
        rw [if_neg (by decide : ¬ ('%' = '+'))]
        rw [if_neg hd1.2.2.2.1, if_neg hd2.2.2.2.1]
        rw [percentDecode.eq_def]
        have harith : 16 * (c.toNat / 16 % 16) + c.toNat % 16 = c.toNat := by omega
        simp [hexVal_hexDigitChar _ hlt1, hexVal_hexDigitChar _ hlt2, ih', harith,
          Char.ofNat_toNat]

theorem formDecode_formEncode (l : List Char) (h : ∀ c ∈ l, c.toNat < 128) :
    formDecode (formEncode l) = l := by
  unfold formDecode
  rw [percentDecode_plusToSpace_formEncode l h]

theorem decodeEncodePair (k v : List Char) (hk : ∀ c ∈ k, c.toNat < 128) :
    (formDecode (splitFirstEq (encodePair (k, v))).1,
      formDecode (splitFirstEq (encodePair (k, v))).2) =
      (k, formDecode (formEncode v)) := by
  rw [show encodePair (k, v) = formEncode k ++ '=' :: formEncode v from rfl,
    splitFirstEq_append _ _ (fun c hc => (formEncode_chars k c hc).2.1)]
  simp only []
  rw [formDecode_formEncode k hk]

theorem azureLoginRedirectQuery_eq (port tenantId clientId s : List Char)
    (htid : ∀ c ∈ tenantId, c ≠ '?') :
    azureLoginRedirectQuery port tenantId clientId s =
      urlSearchParams
        [(str ("client_id"), clientId), (str ("response_type"), str ("code")),
         (str ("redirect_uri"), redirectUriChars port), (str ("scope"), scopeChars),
         (str ("state"), s)] := by
  unfold azureLoginRedirectQuery getAuthorizeUrl
  rw [show str ("/oauth2/v2.0/authorize?") = str ("/oauth2/v2.0/authorize") ++ ['?'] from
    by decide]
  have key :
      str ("https://login.microsoftonline.com/") ++ tenantId ++
          (str ("/oauth2/v2.0/authorize") ++ ['?']) ++
          urlSearchParams
            [(str ("client_id"), clientId), (str ("response_type"), str ("code")),
             (str ("redirect_uri"), redirectUriChars port), (str ("scope"), scopeChars),
             (str ("state"), s)] =
        (str ("https://login.microsoftonline.com/") ++ tenantId ++
            str ("/oauth2/v2.0/authorize")) ++
          '?' ::
            urlSearchParams
              [(str ("client_id"), clientId), (str ("response_type"), str ("code")),
               (str ("redirect_uri"), redirectUriChars port), (str ("scope"), scopeChars),
               (str ("state"), s)] := by
    simp [List.append_assoc]
  rw [key]
  have hpre : ∀ c ∈ str ("https://login.microsoftonline.com/"), c ≠ '?' := by decide
  have hmid : ∀ c ∈ str ("/oauth2/v2.0/authorize"), c ≠ '?' := by decide
  have hA :
      ∀ c ∈ str ("https://login.microsoftonline.com/") ++ tenantId ++
          str ("/oauth2/v2.0/authorize"), c ≠ '?' := by
    intro c hc
    rcases List.mem_append.mp hc with h1 | h2
    · rcases List.mem_append.mp h1 with h3 | h4
      · exact hpre c h3
      · exact htid c h4
    · exact hmid c h2
  rw [splitOnChar_append_sep '?' _ _ hA,
    splitOnChar_no_sep '?' _ (urlSearchParams_chars _)]
  rfl

theorem authorizeQuery_state (port clientId s : List Char)
    (hs : ∀ c ∈ s, c.toNat < 128) :
    getQueryParam
      (urlSearchParams
        [(str ("client_id"), clientId), (str ("response_type"), str ("code")),
         (str ("redirect_uri"), redirectUriChars port), (str ("scope"), scopeChars),
         (str ("state"), s)])
      (str ("state")) = some s := by
  unfold getQueryParam parseQuery urlSearchParams
  have hfree :
      ∀ x ∈ List.map encodePair
        [(str ("client_id"), clientId), (str ("response_type"), str ("code")),
         (str ("redirect_uri"), redirectUriChars port), (str ("scope"), scopeChars),
         (str ("state"), s)], ∀ c ∈ x, c ≠ '&' := by
    intro x hx c hc
    rcases List.mem_map.mp hx with ⟨kv, hkv, hkveq⟩
    subst hkveq
    exact (encodePair_chars kv c hc).1
  rw [splitOnChar_joinAmp _ (by simp) hfree]
  simp only [List.map_cons, List.map_nil]
  rw [decodeEncodePair (str ("client_id")) clientId (by decide)]
  rw [decodeEncodePair (str ("response_type")) (str ("code")) (by decide)]
  rw [decodeEncodePair (str ("redirect_uri")) (redirectUriChars port) (by decide)]
  rw [decodeEncodePair (str ("scope")) scopeChars (by decide)]
  rw [decodeEncodePair (str ("state")) s (by decide)]
  have hb1 : (str ("client_id") == str ("state")) = false := by decide
  have hb2 : (str ("response_type") == str ("state")) = false := by decide
  have hb3 : (str ("redirect_uri") == str ("state")) = false := by decide
  have hb4 : (str ("scope") == str ("state")) = false := by decide
  have hb5 : (str ("state") == str ("state")) = true := by decide
  simp only [List.find?, hb1, hb2, hb3, hb4, hb5]
  simp only [Option.map_some']
  rw [formDecode_formEncode s hs]

theorem callbackQuery_state (s : List Char)
    (hs : ∀ c ∈ s, c ≠ '&' ∧ c ≠ '+' ∧ c ≠ '%') :
    getQueryParam (str ("code=XXXXXXXXX&state=") ++ s) (str ("state")) = some s := by
  rw [show str ("code=XXXXXXXXX&state=") =
      str ("code=XXXXXXXXX") ++ '&' :: (str ("state") ++ ['=']) from by decide]
  have hshape :
      (str ("code=XXXXXXXXX") ++ '&' :: (str ("state") ++ ['='])) ++ s =
        str ("code=XXXXXXXXX") ++ '&' :: (str ("state") ++ '=' :: s) := by
    simp [List.append_assoc]
  rw [hshape]
  unfold getQueryParam parseQuery
  have hcfree : ∀ c ∈ str ("code=XXXXXXXXX"), c ≠ '&' := by decide
  have hsfreeLit : ∀ c ∈ str ("state"), c ≠ '&' := by decide
  have hnosep : ∀ c ∈ str ("state") ++ '=' :: s, c ≠ '&' := by
    intro c hc
    rcases List.mem_append.mp hc with h1 | h2
    · exact hsfreeLit c h1
    · rcases List.mem_cons.mp h2 with h3 | h4
      · subst h3; decide
      · exact (hs c h4).1
  rw [splitOnChar_append_sep '&' _ _ hcfree]
  rw [splitOnChar_no_sep '&' _ hnosep]
  have hstateq : ∀ c ∈ str ("state"), c ≠ '=' := by decide
  simp only [List.map_cons, List.map_nil]
  rw [splitFirstEq_append _ _ hstateq]
  have hfirst :
      (formDecode (splitFirstEq (str ("code=XXXXXXXXX"))).1 == str ("state")) = false := by
    decide
  have hdeclit : formDecode (str ("state")) = str ("state") := by decide
  simp only [hdeclit, List.find?, hfirst]
  have hsecond : (str ("state") == str ("state")) = true := by decide
  simp only [hsecond]
  simp only [Option.map_some']
  rw [formDecode_id s (fun c hc => ⟨(hs c hc).2.1, (hs c hc).2.2⟩)]

/-- Claim C6 counterexample: the state string a&b does not round-trip
through the authorize URL and the fake redirect; /azureResponse receives
the state value a instead, because /azureFakeRedirect re-interpolates the
decoded state into its Location without re-encoding and the ampersand is
then parsed as a parameter separator. -/
theorem state_roundtrip_counterexample :
    stateReceivedAtCallback (str ("3000")) (str ("t")) (str ("c")) (str ("a&b")) =
        some (str ("a")) ∧
      stateReceivedAtCallback (str ("3000")) (str ("t")) (str ("c")) (str ("a&b")) ≠
        some (str ("a&b")) := by
  constructor
  · decide
  · decide

/-- Claim C6 (amended): for every state string s of ASCII characters none
of which is an ampersand, a plus or a percent, and every tenant id free
of question marks, the state parameter received by /azureResponse after
the /azureLogin redirect chain equals s; the round trip is the identity
on such strings (but not on arbitrary strings, see the counterexample). -/
theorem state_roundtrip_amended (port tenantId clientId s : List Char)
    (htid : ∀ c ∈ tenantId, c ≠ '?')
    (hs : ∀ c ∈ s, c.toNat < 128 ∧ c ≠ '&' ∧ c ≠ '+' ∧ c ≠ '%') :
    stateReceivedAtCallback port tenantId clientId s = some s := by
  unfold stateReceivedAtCallback
  rw [azureLoginRedirectQuery_eq port tenantId clientId s htid]
  unfold azureFakeRedirectLocation
  rw [authorizeQuery_state port clientId s (fun c hc => (hs c hc).1)]
  rw [show jsChars (some s) = s from rfl]
  rw [show str ("/azureResponse?code=XXXXXXXXX&state=") =
      str ("/azureResponse") ++ '?' :: str ("code=XXXXXXXXX&state=") from by decide]
  have hshape :
      (str ("/azureResponse") ++ '?' :: str ("code=XXXXXXXXX&state=")) ++ s =
        str ("/azureResponse") ++ '?' :: (str ("code=XXXXXXXXX&state=") ++ s) := by
    simp [List.append_assoc]
  rw [hshape]
  have hresp : ∀ c ∈ str ("/azureResponse"), c ≠ '?' := by decide
  rw [afterFirstChar_append_sep '?' _ _ hresp]
  exact callbackQuery_state s (fun c hc => (hs c hc).2)

/-- Claim C6 witness: a concrete instance of the amended round-trip
theorem at the state value testuser. -/
theorem state_roundtrip_amended_witness :
    stateReceivedAtCallback (str ("3000")) (str ("t")) (str ("c")) (str ("testuser")) =
      some (str ("testuser")) :=
  state_roundtrip_amended (str ("3000")) (str ("t")) (str ("c")) (str ("testuser"))
    (by decide) (by decide)

theorem dbSet_same (db : Db) (k : String) (v : Option UserState) : dbSet db k v k = v := by
  simp [dbSet]

theorem dbSet_other (db : Db) (k : String) (v : Option UserState) (u : String)
    (h : u ≠ k) : dbSet db k v u = db u := by
  simp [dbSet, h]

theorem truthy_some_of_ne (u : String) (h : u ≠ "") : truthy (some u) = true := by
  simp [truthy, h]

/-- A concrete access token used by witnesses and counterexamples; its
expiry timestamp 0 lies in the past of any actual request. -/
def tokT : AccessToken := ⟨"T", 0⟩

/-- A concrete logged-in user record holding the access token tokT. -/
def eAliceTok : UserState := ⟨true, ⟨some tokT, none, none⟩⟩

/-- A database whose only entry is the user alice with record eAliceTok. -/
def dbAliceTok : Db := dbOf ("alice") eAliceTok

/-- Claim C1 counterexample: with the session logged in as alice and a
stored access token whose expiresOnTimestamp is 0 (long expired), /me
does not answer 401; it sends the upstream GET with that token and
relays the upstream status 200, because the handler never inspects the
expiry of the stored token. -/
theorem me_expired_token_counterexample :
    (me dbAliceTok (some ("alice")) ⟨200, some ("BODY"), none⟩).result =
        HOut.ok (sendStatus 200) ∧
      (me dbAliceTok (some ("alice")) ⟨200, some ("BODY"), none⟩).upstreamCall =
        some ("Bearer T") ∧
      (me dbAliceTok (some ("alice")) ⟨200, some ("BODY"), none⟩).result ≠
        HOut.ok (sendStatus 401) := by
  decide

/-- Claim C1 (amended): for every /me request, when the session has no
truthy username, or names a user whose entry is not logged in or holds
no stored access token, the handler answers 401 and attempts no upstream
call; the upstream GET is attempted, with the stored token, exactly when
the session names a logged-in user with a stored token, regardless of
that token's expiry. -/
theorem me_unauthorized_guard_amended (db : Db) (sess : Session) (upstream : HttpResponse) :
    (∀ u e t, sess = some u → u ≠ "" → db u = some e → e.loggedIn = true →
      e.azure.accessToken = some t →
      (me db sess upstream).upstreamCall = some ("Bearer " ++ t.token) ∧
        (me db sess upstream).result = HOut.ok (sendStatus upstream.status)) ∧
    (truthy sess = false →
      (me db sess upstream).result = HOut.ok (sendStatus 401) ∧
        (me db sess upstream).upstreamCall = none) ∧
    (∀ u e, sess = some u → u ≠ "" → db u = some e →
      (e.loggedIn = false ∨ e.azure.accessToken = none) →
      (me db sess upstream).result = HOut.ok (sendStatus 401) ∧
        (me db sess upstream).upstreamCall = none) := by
  refine ⟨?_, ?_, ?_⟩
  · intro u e t hsess hu hdb hlog htok
    subst hsess
    simp [me, truthy, jsString, hu, hdb, hlog, htok]
  · intro hf
    simp [me, hf]
  · intro u e hsess hu hdb hcase
    subst hsess
    rcases hcase with h | h
    · simp [me, truthy, jsString, hu, hdb, h]
    · by_cases hL : e.loggedIn = false <;>
        simp [me, truthy, jsString, hu, hdb, h, hL]

/-- Claim C1 witness: the amended guard theorem applied at a logged-in
session with a stored token and at a session with no username. -/
theorem me_unauthorized_guard_witness :
    (me dbAliceTok (some ("alice")) ⟨204, none, none⟩).upstreamCall =
        some ("Bearer T") ∧
      (me dbAliceTok none ⟨204, none, none⟩).result = HOut.ok (sendStatus 401) :=
  ⟨((me_unauthorized_guard_amended dbAliceTok (some ("alice")) ⟨204, none, none⟩).1
      ("alice") eAliceTok tokT rfl (by decide) (by decide) rfl rfl).1,
   ((me_unauthorized_guard_amended dbAliceTok none ⟨204, none, none⟩).2.1 rfl).1⟩

/-- Claim C4 counterexample: a /azureResponse request whose query carries
an error parameter and also a code does reach the token-exchange step:
the credential is constructed and getToken is invoked once, because the
handler only tests the absence of the code. -/
theorem error_with_code_reaches_exchange_counterexample :
    (azureResponse ("t") ("c") ("r") (dbOf ("alice") ⟨true, emptyAzure⟩)
          (some ("XXXXXXXXX")) (some ("access_denied")) (some ("denied"))
          (some ("alice")) (Except.ok tokT)).getTokenCalls = 1 ∧
      (azureResponse ("t") ("c") ("r") (dbOf ("alice") ⟨true, emptyAzure⟩)
          (some ("XXXXXXXXX")) (some ("access_denied")) (some ("denied"))
          (some ("alice")) (Except.ok tokT)).credentialMade =
        some ⟨"t", "c", "XXXXXXXXX", "r"⟩ := by
  decide

/-- Claim C4 (amended): for every /azureResponse request whose query has
no truthy code parameter (in particular every provider error redirect,
which carries error instead of code), the handler throws before the
token-exchange step: no credential is constructed, getToken is not
called, the database is untouched. A request carrying both code and
error does reach the exchange (see the counterexample). -/
theorem no_code_no_exchange_amended (tid cid ruri : String) (db : Db)
    (code errParam errDesc state : Option String) (tok : Except String AccessToken)
    (hcode : truthy code = false) :
    (∃ m, (azureResponse tid cid ruri db code errParam errDesc state tok).result =
        HOut.thrown (JsError.thrownError m)) ∧
      (azureResponse tid cid ruri db code errParam errDesc state tok).getTokenCalls = 0 ∧
      (azureResponse tid cid ruri db code errParam errDesc state tok).credentialMade =
        none ∧
      (azureResponse tid cid ruri db code errParam errDesc state tok).db = db := by
  simp [azureResponse, hcode]

/-- Claim C4 witness: the amended theorem applied at a query carrying an
error and no code. -/
theorem no_code_no_exchange_witness :
    (∃ m, (azureResponse ("t") ("c") ("r") emptyDb none (some ("access_denied"))
        (some ("denied")) (some ("alice")) (Except.ok tokT)).result =
        HOut.thrown (JsError.thrownError m)) ∧
      (azureResponse ("t") ("c") ("r") emptyDb none (some ("access_denied"))
        (some ("denied")) (some ("alice")) (Except.ok tokT)).getTokenCalls = 0 ∧
      (azureResponse ("t") ("c") ("r") emptyDb none (some ("access_denied"))
        (some ("denied")) (some ("alice")) (Except.ok tokT)).credentialMade = none ∧
      (azureResponse ("t") ("c") ("r") emptyDb none (some ("access_denied"))
        (some ("denied")) (some ("alice")) (Except.ok tokT)).db = emptyDb :=
  no_code_no_exchange_amended ("t") ("c") ("r") emptyDb none (some ("access_denied"))
    (some ("denied")) (some ("alice")) (Except.ok tokT) (by decide)

/-- Claim C7: every /azureResponse invocation that reaches the token
exchange (truthy code, truthy state naming a logged-in user) invokes
getToken exactly once and writes its outcome into that user's azure
state: the token with no error on success, the caught error message with
no token on failure; either way the handler returns the redirect rather
than propagating the failure. -/
theorem token_exchange_once_and_stored (tid cid ruri : String) (db : Db) (c u : String)
    (e : UserState) (errParam errDesc : Option String) (tok : Except String AccessToken)
    (hc : c ≠ "") (hu : u ≠ "") (hdb : db u = some e) (hlog : e.loggedIn = true) :
    (azureResponse tid cid ruri db (some c) errParam errDesc (some u) tok).getTokenCalls =
        1 ∧
      (∀ t, tok = Except.ok t →
        (azureResponse tid cid ruri db (some c) errParam errDesc (some u) tok).db u =
          some ⟨true, ⟨some t, some ⟨tid, cid, c, ruri⟩, none⟩⟩) ∧
      (∀ m, tok = Except.error m →
        (azureResponse tid cid ruri db (some c) errParam errDesc (some u) tok).db u =
          some ⟨true, ⟨none, some ⟨tid, cid, c, ruri⟩, some m⟩⟩) ∧
      (azureResponse tid cid ruri db (some c) errParam errDesc (some u) tok).result =
        HOut.ok (redirectTo ("/")) := by
  cases tok with
  | ok t =>
    refine ⟨?_, ?_, ?_, ?_⟩ <;>
      simp [azureResponse, truthy, jsString, hc, hu, hdb, hlog, dbSet_same]
  | error m =>
    refine ⟨?_, ?_, ?_, ?_⟩ <;>
      simp [azureResponse, truthy, jsString, hc, hu, hdb, hlog, dbSet_same]

/-- Claim C7 witness: the exchange theorem applied at a failing getToken;
the error is stored on the session entry and the handler still answers
with the redirect. -/
theorem token_exchange_once_and_stored_witness :
    (azureResponse ("t") ("c") ("r") (dbOf ("alice") ⟨true, emptyAzure⟩)
        (some ("XXXXXXXXX")) none none (some ("alice"))
        (Except.error ("boom"))).getTokenCalls = 1 ∧
      (azureResponse ("t") ("c") ("r") (dbOf ("alice") ⟨true, emptyAzure⟩)
          (some ("XXXXXXXXX")) none none (some ("alice"))
          (Except.error ("boom"))).db ("alice") =
        some ⟨true, ⟨none, some ⟨"t", "c", "XXXXXXXXX", "r"⟩, some ("boom")⟩⟩ ∧
      (azureResponse ("t") ("c") ("r") (dbOf ("alice") ⟨true, emptyAzure⟩)
          (some ("XXXXXXXXX")) none none (some ("alice"))
          (Except.error ("boom"))).result = HOut.ok (redirectTo ("/")) :=
  ⟨(token_exchange_once_and_stored ("t") ("c") ("r") (dbOf ("alice") ⟨true, emptyAzure⟩)
      ("XXXXXXXXX") ("alice") ⟨true, emptyAzure⟩ none none (Except.error ("boom"))
      (by decide) (by decide) (by decide) rfl).1,
   (token_exchange_once_and_stored ("t") ("c") ("r") (dbOf ("alice") ⟨true, emptyAzure⟩)
      ("XXXXXXXXX") ("alice") ⟨true, emptyAzure⟩ none none (Except.error ("boom"))
      (by decide) (by decide) (by decide) rfl).2.2.1 ("boom") rfl,
   (token_exchange_once_and_stored ("t") ("c") ("r") (dbOf ("alice") ⟨true, emptyAzure⟩)
      ("XXXXXXXXX") ("alice") ⟨true, emptyAzure⟩ none none (Except.error ("boom"))
      (by decide) (by decide) (by decide) rfl).2.2.2⟩

/-- Claim C10 counterexample: a /logout request from a session carrying
no username does not throw when the database holds an entry under the
literal key "undefined" (such an entry is created by visiting /login
with username=undefined); indexing with the undefined username reaches
that entry and the handler completes with 200, logging that user out. -/
theorem logout_undefined_entry_counterexample :
    (logout (dbOf ("undefined") ⟨true, emptyAzure⟩) none).result =
        HOut.ok (sendStatus 200) ∧
      (logout (dbOf ("undefined") ⟨true, emptyAzure⟩) none).result ≠
        HOut.thrown (JsError.typeError ("loggedIn")) := by
  decide

/-- Claim C10 (amended): /logout throws a TypeError reading loggedIn
exactly when the lookup key (the session username, or the literal string
"undefined" when the session carries none) has no database entry, and
completes with 200 exactly when that key has an entry, in which case the
entry's loggedIn flag is cleared (azure state kept) and the session
username is deleted. -/
theorem logout_status_amended (db : Db) (sess : Session) :
    (db (jsString sess) = none →
      (logout db sess).result = HOut.thrown (JsError.typeError ("loggedIn")) ∧
        (logout db sess).db = db ∧ (logout db sess).sess = sess) ∧
    (∀ e, db (jsString sess) = some e →
      (logout db sess).result = HOut.ok (sendStatus 200) ∧
        (logout db sess).db (jsString sess) = some ⟨false, e.azure⟩ ∧
        (logout db sess).sess = none) := by
  constructor
  · intro h
    simp [logout, h]
  · intro e h
    simp [logout, h, dbSet_same]

/-- Claim C10 witness: the amended theorem applied at a session logged in
as alice with an existing entry, and at the empty database with no
session username. -/
theorem logout_status_amended_witness :
    ((logout dbAliceTok (some ("alice"))).result = HOut.ok (sendStatus 200) ∧
      (logout dbAliceTok (some ("alice"))).sess = none) ∧
      (logout emptyDb none).result = HOut.thrown (JsError.typeError ("loggedIn")) :=
  ⟨⟨((logout_status_amended dbAliceTok (some ("alice"))).2 eAliceTok (by decide)).1,
    ((logout_status_amended dbAliceTok (some ("alice"))).2 eAliceTok (by decide)).2.2⟩,
   ((logout_status_amended emptyDb none).1 rfl).1⟩

/-- Claim C3 counterexample: a /azureResponse callback carrying a code
whose state names a username unknown to the database is not answered
with 401; the handler throws a TypeError reading loggedIn of the missing
entry instead (no token exchange is attempted either way). -/
theorem unknown_state_throws_counterexample :
    (azureResponse ("t") ("c") ("r") emptyDb (some ("XXXXXXXXX")) none none
          (some ("ghost")) (Except.ok tokT)).result =
        HOut.thrown (JsError.typeError ("loggedIn")) ∧
      (azureResponse ("t") ("c") ("r") emptyDb (some ("XXXXXXXXX")) none none
          (some ("ghost")) (Except.ok tokT)).result ≠ HOut.ok (sendStatus 401) ∧
      (azureResponse ("t") ("c") ("r") emptyDb (some ("XXXXXXXXX")) none none
          (some ("ghost")) (Except.ok tokT)).getTokenCalls = 0 := by
  decide

/-- Claim C3 (amended): a callback with a code whose state is falsy, or
names a known user whose loggedIn flag is false, is rejected with 401;
a state naming a username unknown to the database makes the handler
throw a TypeError instead of responding 401; in all three cases no token
exchange happens, no credential is constructed and the database is left
untouched. -/
theorem azureResponse_reject_amended (tid cid ruri : String) (db : Db)
    (code errParam errDesc state : Option String) (tok : Except String AccessToken)
    (hcode : truthy code = true) :
    (truthy state = false →
      (azureResponse tid cid ruri db code errParam errDesc state tok).result =
          HOut.ok (sendStatus 401) ∧
        (azureResponse tid cid ruri db code errParam errDesc state tok).db = db ∧
        (azureResponse tid cid ruri db code errParam errDesc state tok).getTokenCalls =
          0 ∧
        (azureResponse tid cid ruri db code errParam errDesc state tok).credentialMade =
          none) ∧
    (∀ u, state = some u → u ≠ "" → db u = none →
      (azureResponse tid cid ruri db code errParam errDesc state tok).result =
          HOut.thrown (JsError.typeError ("loggedIn")) ∧
        (azureResponse tid cid ruri db code errParam errDesc state tok).db = db ∧
        (azureResponse tid cid ruri db code errParam errDesc state tok).getTokenCalls =
          0 ∧
        (azureResponse tid cid ruri db code errParam errDesc state tok).credentialMade =
          none) ∧
    (∀ u e, state = some u → u ≠ "" → db u = some e → e.loggedIn = false →
      (azureResponse tid cid ruri db code errParam errDesc state tok).result =
          HOut.ok (sendStatus 401) ∧
        (azureResponse tid cid ruri db code errParam errDesc state tok).db = db ∧
        (azureResponse tid cid ruri db code errParam errDesc state tok).getTokenCalls =
          0 ∧
        (azureResponse tid cid ruri db code errParam errDesc state tok).credentialMade =
          none) := by
  refine ⟨?_, ?_, ?_⟩
  · intro hf
    simp [azureResponse, hcode, hf]
  · intro u h1 hu hdb
    subst h1
    simp [azureResponse, hcode, truthy_some_of_ne u hu, jsString, hdb]
  · intro u e h1 hu hdb hlog
    subst h1
    simp [azureResponse, hcode, truthy_some_of_ne u hu, jsString, hdb, hlog]

/-- Claim C3 witness: the amended rejection theorem applied at a known
user bob whose loggedIn flag is false. -/
theorem azureResponse_reject_witness :
    (azureResponse ("t") ("c") ("r") (dbOf ("bob") ⟨false, emptyAzure⟩)
          (some ("XXXXXXXXX")) none none (some ("bob")) (Except.ok tokT)).result =
        HOut.ok (sendStatus 401) ∧
      (azureResponse ("t") ("c") ("r") (dbOf ("bob") ⟨false, emptyAzure⟩)
          (some ("XXXXXXXXX")) none none (some ("bob")) (Except.ok tokT)).getTokenCalls =
        0 :=
  ⟨((azureResponse_reject_amended ("t") ("c") ("r") (dbOf ("bob") ⟨false, emptyAzure⟩)
      (some ("XXXXXXXXX")) none none (some ("bob")) (Except.ok tokT) (by decide)).2.2
      ("bob") ⟨false, emptyAzure⟩ rfl (by decide) (by decide) rfl).1,
   ((azureResponse_reject_amended ("t") ("c") ("r") (dbOf ("bob") ⟨false, emptyAzure⟩)
      (some ("XXXXXXXXX")) none none (some ("bob")) (Except.ok tokT) (by decide)).2.2
      ("bob") ⟨false, emptyAzure⟩ rfl (by decide) (by decide) rfl).2.2.1⟩

/-- Claim C5 counterexample: after a successful callback for alice, /me
called against an upstream response with body HELLO answers with the
bare sendStatus of the upstream status; the upstream body is discarded,
not relayed. -/
theorem upstream_body_not_relayed_counterexample :
    (me (azureResponse ("t") ("c") ("r") (dbOf ("alice") ⟨true, emptyAzure⟩)
            (some ("XXXXXXXXX")) none none (some ("alice")) (Except.ok tokT)).db
          (some ("alice")) ⟨200, some ("HELLO"), none⟩).result =
        HOut.ok (⟨200, none, none⟩ : HttpResponse) ∧
      (⟨200, none, none⟩ : HttpResponse).body ≠ some ("HELLO") := by
  decide

/-- Claim C5 (amended): for a logged-in user, a successful callback
stores the obtained token, and an immediately following /me sends the
upstream GET carrying exactly that token and relays the upstream status
unchanged through res.sendStatus; the upstream body is not relayed (the
response to the client has no body of its own). -/
theorem callback_then_me_amended (tid cid ruri : String) (db : Db) (u c : String)
    (e : UserState) (t : AccessToken) (up : HttpResponse)
    (hu : u ≠ "") (hc : c ≠ "") (hdb : db u = some e) (hlog : e.loggedIn = true) :
    (azureResponse tid cid ruri db (some c) none none (some u) (Except.ok t)).db u =
        some ⟨true, ⟨some t, some ⟨tid, cid, c, ruri⟩, none⟩⟩ ∧
      (me (azureResponse tid cid ruri db (some c) none none (some u) (Except.ok t)).db
          (some u) up).upstreamCall = some ("Bearer " ++ t.token) ∧
      (me (azureResponse tid cid ruri db (some c) none none (some u) (Except.ok t)).db
          (some u) up).result = HOut.ok (sendStatus up.status) := by
  have hcb :
      (azureResponse tid cid ruri db (some c) none none (some u) (Except.ok t)).db =
        dbSet db u (some ⟨true, ⟨some t, some ⟨tid, cid, c, ruri⟩, none⟩⟩) := by
    simp [azureResponse, truthy, jsString, hc, hu, hdb, hlog]
  rw [hcb]
  refine ⟨dbSet_same db u _, ?_, ?_⟩ <;>
    simp [me, truthy, jsString, hu, dbSet_same]

/-- Claim C5 witness: the amended theorem applied at alice with the token
tokT and a concrete upstream response. -/
theorem callback_then_me_witness :
    (me (azureResponse ("t") ("c") ("r") (dbOf ("alice") ⟨true, emptyAzure⟩)
            (some ("XXXXXXXXX")) none none (some ("alice")) (Except.ok tokT)).db
          (some ("alice")) ⟨200, some ("HELLO"), none⟩).upstreamCall =
        some ("Bearer T") ∧
      (me (azureResponse ("t") ("c") ("r") (dbOf ("alice") ⟨true, emptyAzure⟩)
            (some ("XXXXXXXXX")) none none (some ("alice")) (Except.ok tokT)).db
          (some ("alice")) ⟨200, some ("HELLO"), none⟩).result =
        HOut.ok (sendStatus 200) :=
  ⟨(callback_then_me_amended ("t") ("c") ("r") (dbOf ("alice") ⟨true, emptyAzure⟩)
      ("alice") ("XXXXXXXXX") ⟨true, emptyAzure⟩ tokT ⟨200, some ("HELLO"), none⟩
      (by decide) (by decide) (by decide) rfl).2.1,
   (callback_then_me_amended ("t") ("c") ("r") (dbOf ("alice") ⟨true, emptyAzure⟩)
      ("alice") ("XXXXXXXXX") ⟨true, emptyAzure⟩ tokT ⟨200, some ("HELLO"), none⟩
      (by decide) (by decide) (by decide) rfl).2.2⟩

/-- Claim C8 counterexample: with the empty username (a request to /login
with an empty username parameter), the second /login from the same
session is not rejected: the empty session username is falsy, so the
handler runs the login path again and answers 200 instead of an error
status. -/
theorem empty_username_login_counterexample :
    (login (login emptyDb none (some (""))).db (login emptyDb none (some (""))).sess
          (some (""))).result = sendStatus 200 ∧
      sendStatus 200 ≠
        (⟨500, some ("User is already authenticated"), none⟩ : HttpResponse) := by
  decide

/-- Claim C8 (amended): for every nonempty username, a /login from a
session with no truthy username answers 200, sets the entry's loggedIn
flag and stores the username on the session; any second /login from that
session is rejected with the error response (body plus status 500) and
changes neither the database nor the session. At the empty username the
second login is accepted instead (see the counterexample). -/
theorem login_twice_amended (db : Db) (sess : Session) (u : String)
    (hu : u ≠ "") (hsess : truthy sess = false) :
    (login db sess (some u)).result = sendStatus 200 ∧
      (∃ e, (login db sess (some u)).db u = some e ∧ e.loggedIn = true) ∧
      (login db sess (some u)).sess = some u ∧
      (∀ w, (login (login db sess (some u)).db (login db sess (some u)).sess w).result =
          ⟨500, some ("User is already authenticated"), none⟩ ∧
        (login (login db sess (some u)).db (login db sess (some u)).sess w).db =
          (login db sess (some u)).db ∧
        (login (login db sess (some u)).db (login db sess (some u)).sess w).sess =
          some u) := by
  have hu' : truthy (some u) = true := truthy_some_of_ne u hu
  refine ⟨?_, ?_, ?_, ?_⟩
  · simp [login, hsess]
  · cases h : db u with
    | none =>
      refine ⟨⟨true, emptyAzure⟩, ?_, rfl⟩
      simp [login, hsess, jsString, h, dbSet]
    | some e =>
      refine ⟨⟨true, e.azure⟩, ?_, rfl⟩
      simp [login, hsess, jsString, h, dbSet]
  · simp [login, hsess]
  · intro w
    have hfirst : (login db sess (some u)).sess = some u := by simp [login, hsess]
    refine ⟨?_, ?_, ?_⟩ <;> rw [hfirst] <;> simp [login, hu']

/-- Claim C8 witness: the amended theorem applied at the username alice
on the empty database: first login 200, second login rejected with the
500 error response. -/
theorem login_twice_amended_witness :
    (login emptyDb none (some ("alice"))).result = sendStatus 200 ∧
      (login (login emptyDb none (some ("alice"))).db
          (login emptyDb none (some ("alice"))).sess (some ("alice"))).result =
        ⟨500, some ("User is already authenticated"), none⟩ :=
  ⟨(login_twice_amended emptyDb none ("alice") (by decide) (by decide)).1,
   ((login_twice_amended emptyDb none ("alice") (by decide) (by decide)).2.2.2
      (some ("alice"))).1⟩

/-- Claim C9: /login never modifies the azure field of an existing
database entry: whichever username is logged in, an entry that already
existed keeps its azure state (only its loggedIn flag may flip to true).
Consequently a token stored before a logout is served again by /me after
a later re-login with no new callback: logging out and logging back in
as the same user leaves the stored token in place, and /me then sends it
upstream. -/
theorem login_preserves_azure_state (db : Db) (sess : Session) (q : Option String)
    (u : String) (e : UserState) (hdb : db u = some e) :
    (∃ b, (login db sess q).db u = some ⟨b, e.azure⟩) ∧
    (u ≠ "" → ∀ t up, e.azure.accessToken = some t →
      (me (login (logout db (some u)).db (logout db (some u)).sess (some u)).db
          (some u) up).upstreamCall = some ("Bearer " ++ t.token)) := by
  constructor
  · by_cases hs : truthy sess
    · exact ⟨e.loggedIn, by simp [login, hs, hdb]⟩
    · by_cases hk : u = jsString q
      · subst hk
        exact ⟨true, by simp [login, hs, hdb, dbSet]⟩
      · refine ⟨e.loggedIn, ?_⟩
        cases hq : db (jsString q) with
        | none => simp [login, hs, hq, dbSet, hk, hdb]
        | some f => simp [login, hs, hq, dbSet, hk, hdb]
  · intro hu t up htok
    have hlogdb : (logout db (some u)).db = dbSet db u (some ⟨false, e.azure⟩) := by
      simp [logout, jsString, hdb]
    have hlogsess : (logout db (some u)).sess = none := by
      simp [logout, jsString, hdb]
    rw [hlogdb, hlogsess]
    have hl :
        (login (dbSet db u (some ⟨false, e.azure⟩)) none (some u)).db =
          dbSet (dbSet db u (some ⟨false, e.azure⟩)) u (some ⟨true, e.azure⟩) := by
      simp [login, truthy, jsString, dbSet_same]
    rw [hl]
    simp [me, truthy_some_of_ne u hu, jsString, dbSet_same, htok]

/-- Claim C9 witness: the frame theorem applied at alice (whose entry
holds the token tokT) while bob logs in, and the logout plus re-login
scenario for alice herself, after which /me still sends tokT. -/
theorem login_preserves_azure_state_witness :
    (∃ b, (login dbAliceTok none (some ("bob"))).db ("alice") =
        some ⟨b, eAliceTok.azure⟩) ∧
      (me (login (logout dbAliceTok (some ("alice"))).db
            (logout dbAliceTok (some ("alice"))).sess (some ("alice"))).db
          (some ("alice")) ⟨200, none, none⟩).upstreamCall = some ("Bearer T") :=
  ⟨(login_preserves_azure_state dbAliceTok none (some ("bob")) ("alice") eAliceTok
      (by decide)).1,
   (login_preserves_azure_state dbAliceTok none (some ("alice")) ("alice") eAliceTok
      (by decide)).2 (by decide) tokT ⟨200, none, none⟩ rfl⟩

/-- Claim C2 counterexample: alice is logged in with a stored token; after
/logout, /me on her session indeed fails with 401, but a single new
/login (with no new /azureResponse callback) already restores successful
/me calls, which reuse the token stored before the logout. -/
theorem login_alone_restores_me_counterexample :
    (me (logout dbAliceTok (some ("alice"))).db (some ("alice"))
          ⟨200, none, none⟩).result = HOut.ok (sendStatus 401) ∧
      (me (login (logout dbAliceTok (some ("alice"))).db
            (logout dbAliceTok (some ("alice"))).sess (some ("alice"))).db
          (some ("alice")) ⟨200, none, none⟩).result = HOut.ok (sendStatus 200) ∧
      (me (login (logout dbAliceTok (some ("alice"))).db
            (logout dbAliceTok (some ("alice"))).sess (some ("alice"))).db
          (some ("alice")) ⟨200, none, none⟩).upstreamCall = some ("Bearer T") := by
  decide

/-- Claim C2 (amended): after /logout for a user's session, every /me for
that user answers 401 (no upstream call) until a new /login; a new
/login alone already restores successful /me calls whenever the user's
entry still stores an access token from an earlier callback, and only
for a user with no stored token does /me keep failing until a new
callback completes. -/
theorem logout_login_me_amended (db : Db) (u : String) (e : UserState)
    (hu : u ≠ "") (hdb : db u = some e) :
    (logout db (some u)).result = HOut.ok (sendStatus 200) ∧
      (∀ up, (me (logout db (some u)).db (some u) up).result =
          HOut.ok (sendStatus 401) ∧
        (me (logout db (some u)).db (some u) up).upstreamCall = none) ∧
      (∀ up t, e.azure.accessToken = some t →
        (me (login (logout db (some u)).db (logout db (some u)).sess (some u)).db
            (some u) up).result = HOut.ok (sendStatus up.status) ∧
          (me (login (logout db (some u)).db (logout db (some u)).sess (some u)).db
              (some u) up).upstreamCall = some ("Bearer " ++ t.token)) ∧
      (∀ up, e.azure.accessToken = none →
        (me (login (logout db (some u)).db (logout db (some u)).sess (some u)).db
            (some u) up).result = HOut.ok (sendStatus 401) ∧
          (me (login (logout db (some u)).db (logout db (some u)).sess (some u)).db
              (some u) up).upstreamCall = none) := by
  have hlogdb : (logout db (some u)).db = dbSet db u (some ⟨false, e.azure⟩) := by
    simp [logout, jsString, hdb]
  have hlogsess : (logout db (some u)).sess = none := by
    simp [logout, jsString, hdb]
  have hl :
      (login (dbSet db u (some ⟨false, e.azure⟩)) none (some u)).db =
        dbSet (dbSet db u (some ⟨false, e.azure⟩)) u (some ⟨true, e.azure⟩) := by
    simp [login, truthy, jsString, dbSet_same]
  refine ⟨?_, ?_, ?_, ?_⟩
  · simp [logout, jsString, hdb]
  · intro up
    rw [hlogdb]
    simp [me, truthy_some_of_ne u hu, jsString, dbSet_same]
  · intro up t htok
    rw [hlogdb, hlogsess, hl]
    simp [me, truthy_some_of_ne u hu, jsString, dbSet_same, htok]
  · intro up htok
    rw [hlogdb, hlogsess, hl]
    simp [me, truthy_some_of_ne u hu, jsString, dbSet_same, htok]

/-- Claim C2 witness: the amended theorem applied at alice with a stored
token: 401 right after logout, success with the old token after login
alone. -/
theorem logout_login_me_amended_witness :
    (me (logout dbAliceTok (some ("alice"))).db (some ("alice"))
          ⟨204, none, none⟩).result = HOut.ok (sendStatus 401) ∧
      (me (login (logout dbAliceTok (some ("alice"))).db
            (logout dbAliceTok (some ("alice"))).sess (some ("alice"))).db
          (some ("alice")) ⟨204, none, none⟩).result = HOut.ok (sendStatus 204) :=
  ⟨((logout_login_me_amended dbAliceTok ("alice") eAliceTok (by decide)
      (by decide)).2.1 ⟨204, none, none⟩).1,
   ((logout_login_me_amended dbAliceTok ("alice") eAliceTok (by decide)
      (by decide)).2.2.1 ⟨204, none, none⟩ tokT rfl).1⟩
